import Mathlib

/-
  Shallow embedding of src/app.py (outbound-call campaign dialer).

  Modelling conventions:
  * Supabase tables are lists inside an explicit state record `St`; row ids for
    inserted calls come from the counter `next_call_id`, mirroring the id the
    database returns from an insert.
  * Python truthiness on strings and integers (the `a or b` idiom used for
    field fallbacks and defaults) is modelled by `pyOrS` / `pyIntOr`.
  * Timestamps (now_utc_iso) are abstract instants `now : Nat`.
  * JSON documents are structures with `Option` fields; values such as
    duration or cost are pass-through tokens modelled as `Option String`
    (resp. the raw event document for audit payloads).
  * The voice gateway (httpx POST plus raise_for_status) is an oracle
    `gw : String -> Except String GatewayResp`; configuration errors raised by
    dizparos_start_call before the network call are the explicit checks below.
  * The dispatch loop records, per selected contact, the ordered list of store
    and gateway operations it performs (`Action`); the resulting state is the
    left fold of those operations, so the trace is the semantics.
-/

namespace Dizparos

/-- Python string truthiness for an optional string field. -/
def truthyS : Option String → Bool
  | none => false
  | some s => s != ""

/-- Python `a or b` on optional string fields: first truthy operand wins. -/
def pyOrS (a b : Option String) : Option String :=
  if truthyS a then a else b

/-- Keep a value only when truthy, mirroring `if not x` guards. -/
def pyTruthy (a : Option String) : Option String :=
  if truthyS a then a else none

/-- Python `int(x or d)` on an optional integer field (0 and null are falsy). -/
def pyIntOr (a : Option Int) (d : Int) : Int :=
  match a with
  | none => d
  | some v => if v = 0 then d else v

/-- Character-list prefix test, by hand to keep the kernel evaluation simple. -/
def charsLead : List Char → List Char → Bool
  | [], _ => true
  | _ :: _, [] => false
  | a :: as, b :: bs => a == b && charsLead as bs

/-- Character-list containment test. -/
def charsContain (needle : List Char) : List Char → Bool
  | [] => needle.isEmpty
  | b :: bs => charsLead needle (b :: bs) || charsContain needle bs

/-- Python `needle in hay` on strings: substring containment. -/
def strIn (needle hay : String) : Bool :=
  charsContain needle.toList hay.toList

/-- ASCII lowercasing (str.lower on the vocabulary the code matches on),
written over the character list so that the kernel can evaluate it. -/
def strLower (s : String) : String :=
  String.mk (s.toList.map Char.toLower)

/-- str.strip: drop leading and trailing whitespace, written over the
character list so that the kernel can evaluate it. -/
def strStrip (s : String) : String :=
  String.mk (((s.toList.dropWhile Char.isWhitespace).reverse.dropWhile
    Char.isWhitespace).reverse)

/-- Row of the campaigns table, as read by tick (id, concurrency, status). -/
structure Campaign where
  id : String
  status : String
  concurrency : Option Int
deriving Repr, DecidableEq

/-- Row of the contacts table. -/
structure Contact where
  id : Nat
  campaign_id : String
  phone_e164 : String
  status : String
  attempts : Option Int
  last_call_id : Option Nat
deriving Repr, DecidableEq

/-- Row of the calls table. -/
structure Call where
  id : Nat
  campaign_id : Option String
  contact_id : Option Nat
  dizparos_call_id : Option String
  status : String
  duration : Option String
  cost : Option String
  recording_url : Option String
  created_at : Option Nat
  finished_at : Option Nat
deriving Repr, DecidableEq

/-- Nested data object of a webhook event document. -/
structure WData where
  call_id : Option String
  duration : Option String
  cost : Option String
  recording_url : Option String
deriving Repr, DecidableEq

/-- A delivered webhook event document. -/
structure WebhookEvent where
  type : Option Int
  type_description : Option String
  event : Option String
  call_id : Option String
  id : Option String
  data : Option WData
deriving Repr, DecidableEq

/-- Payload column of a call_events row: either the raw delivered document or
the diagnostic payload written on a dispatch failure. -/
inductive EventPayload where
  | webhook (ev : WebhookEvent)
  | startFailed (error : String) (phone : String)
deriving Repr, DecidableEq

/-- Row of the call_events table (as inserted by the code). -/
structure CallEvent where
  call_id : Option Nat
  event_type : String
  payload : EventPayload
deriving Repr, DecidableEq

/-- The store: all four tables plus the id generator for call inserts. -/
structure St where
  campaigns : List Campaign
  contacts : List Contact
  calls : List Call
  call_events : List CallEvent
  next_call_id : Nat
deriving Repr, DecidableEq

/-- Gateway response document; the three locations the code probes for the
gateway call identifier. -/
structure GatewayResp where
  call_id : Option String
  id : Option String
  data_call_id : Option String
deriving Repr, DecidableEq

/-- Configuration needed by dizparos_start_call. -/
structure Config where
  token : String
  transfer_destination : String
  endpoint : String
deriving Repr, DecidableEq

/-- Tolerant extraction of the gateway call identifier from a start-call
response: resp.call_id, else resp.id, else resp.data.call_id, then the
`if not diz_call_id` truthiness guard. -/
def extract_call_id (r : GatewayResp) : Option String :=
  pyTruthy (pyOrS r.call_id (pyOrS r.id r.data_call_id))

/-- dizparos_start_call: the three configuration checks, then the gateway. -/
def dizparos_start_call (cfg : Config) (gw : String → Except String GatewayResp)
    (phone : String) : Except String GatewayResp :=
  if cfg.token = "" then Except.error "DIZPAROS_TOKEN nao configurado no Render."
  else if cfg.transfer_destination = "" then Except.error "TRANSFER_DESTINATION nao configurado no Render."
  else if cfg.endpoint = "" then Except.error "DIZPAROS_ENDPOINT nao configurado no Render."
  else gw phone

/-- Rendering of a gateway response used in the missing-call-id error text. -/
def respToString (r : GatewayResp) : String :=
  String.intercalate ", " [r.call_id.getD "-", r.id.getD "-", r.data_call_id.getD "-"]

/-- Error raised when a gateway response carries no usable call identifier. -/
def missingIdMsg (r : GatewayResp) : String :=
  "Resposta do Dizparos sem call_id: " ++ respToString r

/-- verify_webhook: with no configured secret the check is skipped; otherwise
the stripped x-webhook-secret header must equal the secret or 401 is raised. -/
def verify_webhook (secret : String) (header : Option String) : Option Nat :=
  if secret = "" then none
  else if strStrip (header.getD "") ≠ secret then some 401 else none

/-- Normalized event type: str(type_description or event or type or
"unknown").lower(). -/
def descOf (ev : WebhookEvent) : String :=
  strLower
    (match pyTruthy (pyOrS ev.type_description ev.event) with
     | some s => s
     | none =>
         match ev.type with
         | some t => if t = 0 then "unknown" else toString t
         | none => "unknown")

/-- Webhook call-id extraction: data.call_id, else top-level call_id, else id,
then the `if not diz_call_id` truthiness guard. -/
def extractWebhookCallId (ev : WebhookEvent) : Option String :=
  pyTruthy (pyOrS (ev.data.bind WData.call_id) (pyOrS ev.call_id ev.id))

/-- Canonical classification of an event, exactly the condition chain of the
webhook handler: numeric code equality or lowercase substring containment. -/
inductive EvClass where
  | answered
  | transferred
  | finished
  | unknown
deriving Repr, DecidableEq

/-- The condition chain keying the state machine in dizparos_webhook. -/
def classify (t : Option Int) (desc : String) : EvClass :=
  if t == some 2000 || strIn "answered" desc then EvClass.answered
  else if t == some 2001 || strIn "transferred" desc then EvClass.transferred
  else if t == some 2002 || strIn "finished" desc || strIn "completed" desc then EvClass.finished
  else EvClass.unknown

/-- Update applied to the matching call row for answered and transferred. -/
def setStatusAt (callId : Nat) (st : String) (c : Call) : Call :=
  if c.id = callId then { c with status := st } else c

/-- Update applied to the matching call row for finished: status, duration,
cost, recording_url from the event data and finished_at from the clock. -/
def setFinishedAt (callId : Nat) (ev : WebhookEvent) (now : Nat) (c : Call) : Call :=
  if c.id = callId then
    { c with status := "finished",
             duration := ev.data.bind WData.duration,
             cost := ev.data.bind WData.cost,
             recording_url := ev.data.bind WData.recording_url,
             finished_at := some now }
  else c

/-- Update marking the linked contact done on a finished event. -/
def setContactDone (cid : Nat) (x : Contact) : Contact :=
  if x.id = cid then { x with status := "done" } else x

/-- The webhook state machine applied to a found call (its id and contact). -/
def applyTransition (ev : WebhookEvent) (desc : String) (callId : Nat)
    (contactId : Option Nat) (now : Nat) (s : St) : St :=
  match classify ev.type desc with
  | EvClass.answered =>
      { s with calls := s.calls.map (setStatusAt callId "answered") }
  | EvClass.transferred =>
      { s with calls := s.calls.map (setStatusAt callId "transferred") }
  | EvClass.finished =>
      let s1 := { s with calls := s.calls.map (setFinishedAt callId ev now) }
      match contactId with
      | some cid => { s1 with contacts := s1.contacts.map (setContactDone cid) }
      | none => s1
  | EvClass.unknown => s

/-- A call_events row archiving a delivered webhook document. -/
def mkWebhookEventRow (cid : Option Nat) (etype : String) (ev : WebhookEvent) : CallEvent :=
  { call_id := cid, event_type := etype, payload := EventPayload.webhook ev }

/-- Diagnostic sink when the event carries no call identifier at all. -/
def recordOrphanEvent (ev : WebhookEvent) (s : St) : St :=
  { s with call_events := s.call_events ++
      [mkWebhookEventRow none ("unknown_no_call_id:" ++ descOf ev) ev] }

/-- Response of the webhook route. -/
structure WebhookResp where
  ok : Bool
  warning : Option String
  call_id : Option Nat
  dizparos_call_id : Option String
deriving Repr, DecidableEq

/-- Response returned for an event with no call identifier. -/
def orphanResp : WebhookResp :=
  { ok := true, warning := some "call_id ausente, evento salvo como debug",
    call_id := none, dizparos_call_id := none }

/-- Minimal placeholder call created when an event references an unknown
gateway call identifier. -/
def mkPlaceholderCall (nid : Nat) (ext : String) (now : Nat) : Call :=
  { id := nid, campaign_id := none, contact_id := none,
    dizparos_call_id := some ext, status := "created",
    duration := none, cost := none, recording_url := none,
    created_at := some now, finished_at := none }

/-- The webhook route: verify the shared secret, normalize the event, archive
it, then either sink it, create a placeholder call, or run the state machine
and propagate done to the linked contact. Except.error carries the HTTP status
of an authentication rejection, raised before any store access. -/
def dizparos_webhook (secret : String) (header : Option String)
    (ev : WebhookEvent) (now : Nat) (s : St) : Except Nat (St × WebhookResp) :=
  match verify_webhook secret header with
  | some code => Except.error code
  | none =>
    match extractWebhookCallId ev with
    | none => Except.ok (recordOrphanEvent ev s, orphanResp)
    | some ext =>
      match s.calls.find? (fun c => c.dizparos_call_id == some ext) with
      | none =>
          let s1 := { s with call_events := s.call_events ++
              [mkWebhookEventRow none (descOf ev) ev] }
          Except.ok
            ({ s1 with calls := s1.calls ++ [mkPlaceholderCall s1.next_call_id ext now],
                       next_call_id := s1.next_call_id + 1 },
             { ok := true,
               warning := some "call placeholder criado, aguarde o tick criar vínculo com contact",
               call_id := none, dizparos_call_id := none })
      | some c0 =>
          let s1 := { s with call_events := s.call_events ++
              [mkWebhookEventRow (some c0.id) (descOf ev) ev] }
          Except.ok
            (applyTransition ev (descOf ev) c0.id c0.contact_id now s1,
             { ok := true, warning := none,
               call_id := some c0.id, dizparos_call_id := some ext })

/-- Store and gateway operations performed by the dispatch loop for one
selected contact, in program order. -/
inductive Action where
  | insertCall (row : Call)
  | markCalling (cid : Nat) (att : Int) (callId : Nat)
  | gatewayCall (phone : String)
  | setExternalId (callId : Nat) (ext : String)
  | setCallFailed (callId : Nat) (t : Nat)
  | setContactFailed (cid : Nat)
  | insertFailEvent (callId : Nat) (error : String) (phone : String)
deriving Repr, DecidableEq

/-- Contact update performed before the gateway call: status calling,
attempts incremented, last_call_id pointing at the new call row. -/
def markCalling (cid : Nat) (att : Int) (callId : Nat) (x : Contact) : Contact :=
  if x.id = cid then
    { x with status := "calling", attempts := some att, last_call_id := some callId }
  else x

/-- Call update on a dispatch failure: status failed, finished_at stamped. -/
def markCallFailed (callId t : Nat) (c : Call) : Call :=
  if c.id = callId then { c with status := "failed", finished_at := some t } else c

/-- Contact update on a dispatch failure. -/
def markContactFailed (cid : Nat) (x : Contact) : Contact :=
  if x.id = cid then { x with status := "failed" } else x

/-- Call update storing the gateway call identifier. -/
def setExtId (callId : Nat) (ext : String) (c : Call) : Call :=
  if c.id = callId then { c with dizparos_call_id := some ext } else c

/-- Effect of one operation on the store; the gateway invocation touches no
table. -/
def applyAction (s : St) (a : Action) : St :=
  match a with
  | Action.insertCall row =>
      { s with calls := s.calls ++ [row], next_call_id := s.next_call_id + 1 }
  | Action.markCalling cid att callId =>
      { s with contacts := s.contacts.map (markCalling cid att callId) }
  | Action.gatewayCall _ => s
  | Action.setExternalId callId ext =>
      { s with calls := s.calls.map (setExtId callId ext) }
  | Action.setCallFailed callId t =>
      { s with calls := s.calls.map (markCallFailed callId t) }
  | Action.setContactFailed cid =>
      { s with contacts := s.contacts.map (markContactFailed cid) }
  | Action.insertFailEvent callId err phone =>
      { s with call_events := s.call_events ++
          [{ call_id := some callId, event_type := "start_failed",
             payload := EventPayload.startFailed err phone }] }

/-- Left fold of a sequence of operations over the store. -/
def applyActions (s : St) (acts : List Action) : St :=
  List.foldl applyAction s acts

/-- The call row inserted for a selected contact, before the gateway call. -/
def mkCallRow (nid : Nat) (cid : String) (contactId : Nat) (now : Nat) : Call :=
  { id := nid, campaign_id := some cid, contact_id := some contactId,
    dizparos_call_id := none, status := "created",
    duration := none, cost := none, recording_url := none,
    created_at := some now, finished_at := none }

/-- The three operations performed for every selected contact, in program
order: insert the call row, update the contact, invoke the gateway. -/
def startActs (now : Nat) (cid : String) (nid : Nat) (c : Contact) : List Action :=
  [Action.insertCall (mkCallRow nid cid c.id now),
   Action.markCalling c.id (pyIntOr c.attempts 0 + 1) nid,
   Action.gatewayCall c.phone_e164]

/-- The three operations of the dispatch failure handler, in program order. -/
def failActs (callId contactId now : Nat) (em phone : String) : List Action :=
  [Action.setCallFailed callId now,
   Action.setContactFailed contactId,
   Action.insertFailEvent callId em phone]

/-- Dispatch of one selected contact: returns the store after the per-contact
loop body, whether the start counted as started, and the ordered operation
trace. The gateway oracle is pure, so evaluating it up front and then folding
the trace reproduces the program order exactly. -/
def processContact (cfg : Config) (gw : String → Except String GatewayResp)
    (now : Nat) (cid : String) (s : St) (c : Contact) : St × Bool × List Action :=
  match dizparos_start_call cfg gw c.phone_e164 with
  | Except.ok r =>
      match extract_call_id r with
      | some ext =>
          let acts := startActs now cid s.next_call_id c ++
            [Action.setExternalId s.next_call_id ext]
          (applyActions s acts, true, acts)
      | none =>
          let acts := startActs now cid s.next_call_id c ++
            failActs s.next_call_id c.id now (missingIdMsg r) c.phone_e164
          (applyActions s acts, false, acts)
  | Except.error e =>
      let acts := startActs now cid s.next_call_id c ++
        failActs s.next_call_id c.id now e c.phone_e164
      (applyActions s acts, false, acts)

/-- Sequential per-contact loop of one campaign, accumulating the started and
errors counters. -/
def processContacts (cfg : Config) (gw : String → Except String GatewayResp)
    (now : Nat) (cid : String) : St → List Contact → St × Nat × Nat
  | s, [] => (s, 0, 0)
  | s, c :: cs =>
      let pc := processContact cfg gw now cid s c
      let rest := processContacts cfg gw now cid pc.1 cs
      (rest.1, (if pc.2.1 then 1 else 0) + rest.2.1,
               (if pc.2.1 then 0 else 1) + rest.2.2)

/-- In-flight statuses of a call (the statuses counted by the allocator). -/
def isInFlightStatus (st : String) : Bool :=
  st == "created" || st == "answered" || st == "transferred"

/-- Number of in-flight calls of a campaign in a store. -/
def inFlight (s : St) (cid : String) : Nat :=
  (s.calls.filter (fun c => c.campaign_id == some cid && isInFlightStatus c.status)).length

/-- The slot allocator: free = max(concurrency - in_flight, 0). -/
def free_slots_calc (concurrency : Int) (current : Nat) : Int :=
  max (concurrency - (current : Int)) 0

/-- Pending contacts of a campaign in a store, in table order. -/
def pendingContacts (s : St) (cid : String) : List Contact :=
  s.contacts.filter (fun c => c.campaign_id == cid && c.status == "pending")

/-- Per-campaign entry of the tick response. -/
structure TickEntry where
  campaign_id : String
  started : Nat
  errors : Nat
  reason : Option String
  free_slots : Option Nat
deriving Repr, DecidableEq

/-- Response of the tick route. -/
structure TickResp where
  ok : Bool
  message : Option String
  results : Option (List TickEntry)
deriving Repr, DecidableEq

/-- One campaign iteration of the dispatch loop, with its two reads (the
in-flight count and the pending-contact selection) taken from the snapshot
`snap` and its writes applied to the store `s`. A non-overlapped invocation
has snap = s; an invocation racing with another one may have observed an
older snapshot, which the code permits because the reads are not part of one
atomic transaction with the writes. -/
def tickCampaignSnap (cfg : Config) (gw : String → Except String GatewayResp)
    (now : Nat) (snap s : St) (camp : Campaign) : St × TickEntry :=
  let conc := pyIntOr camp.concurrency 5
  let current := inFlight snap camp.id
  let free := free_slots_calc conc current
  if free ≤ 0 then
    (s, { campaign_id := camp.id, started := 0, errors := 0,
          reason := some "sem slots", free_slots := none })
  else
    let fs := free.toNat
    let selected := (pendingContacts snap camp.id).take fs
    let r := processContacts cfg gw now camp.id s selected
    (r.1, { campaign_id := camp.id, started := r.2.1, errors := r.2.2,
            reason := none, free_slots := some fs })

/-- One campaign iteration of a non-overlapped (sequential) invocation. -/
def tickCampaign (cfg : Config) (gw : String → Except String GatewayResp)
    (now : Nat) (s : St) (camp : Campaign) : St × TickEntry :=
  tickCampaignSnap cfg gw now s s camp

/-- Sequential loop over the running campaigns. -/
def runCampaigns (cfg : Config) (gw : String → Except String GatewayResp)
    (now : Nat) : St → List Campaign → St × List TickEntry
  | s, [] => (s, [])
  | s, camp :: cs =>
      let r := tickCampaign cfg gw now s camp
      let rest := runCampaigns cfg gw now r.1 cs
      (rest.1, r.2 :: rest.2)

/-- Campaigns selected by the tick query: status running, optionally
restricted to the requested campaign id. -/
def matchingCampaigns (s : St) (body : Option String) : List Campaign :=
  s.campaigns.filter (fun c => c.status == "running" &&
    (match body with
     | none => true
     | some b => c.id == b))

/-- The tick route: select campaigns, and either report that none are running
or process each campaign in turn and collect the per-campaign entries. -/
def tick (cfg : Config) (gw : String → Except String GatewayResp) (now : Nat)
    (body : Option String) (s : St) : St × TickResp :=
  match matchingCampaigns s body with
  | [] =>
      (s, { ok := true, message := some "Nenhuma campanha running.", results := none })
  | c :: cs =>
      let r := runCampaigns cfg gw now s (c :: cs)
      (r.1, { ok := true, message := none, results := some r.2 })

/-
  Concrete fixtures used by counterexamples and witnesses.
-/

/-- A fully configured gateway client configuration. -/
def cfg0 : Config := { token := "tok", transfer_destination := "dest", endpoint := "ep" }

/-- A gateway oracle that always succeeds and returns call identifier g1. -/
def gw0 : String → Except String GatewayResp :=
  fun _ => Except.ok { call_id := some "g1", id := none, data_call_id := none }

/-- A gateway oracle that always fails. -/
def gwFail : String → Except String GatewayResp :=
  fun _ => Except.error "boom"

/-- A running campaign with concurrency budget 1. -/
def camp0 : Campaign := { id := "X", status := "running", concurrency := some 1 }

/-- First pending contact of campaign X. -/
def contact1 : Contact :=
  { id := 1, campaign_id := "X", phone_e164 := "+5511999990001",
    status := "pending", attempts := some 0, last_call_id := none }

/-- Second pending contact of campaign X. -/
def contact2 : Contact :=
  { id := 2, campaign_id := "X", phone_e164 := "+5511999990002",
    status := "pending", attempts := some 0, last_call_id := none }

/-- Store with one running campaign of concurrency 1 and two pending
contacts. -/
def s0 : St :=
  { campaigns := [camp0], contacts := [contact1, contact2],
    calls := [], call_events := [], next_call_id := 1 }

/-- Completely empty store. -/
def stEmpty : St :=
  { campaigns := [], contacts := [], calls := [], call_events := [], next_call_id := 1 }

/-- An in-flight call of campaign X. -/
def callBusy : Call :=
  { id := 5, campaign_id := some "X", contact_id := some 9,
    dizparos_call_id := some "b5", status := "created",
    duration := none, cost := none, recording_url := none,
    created_at := some 0, finished_at := none }

/-- Store where campaign X (concurrency 1) already has one in-flight call. -/
def st9 : St :=
  { campaigns := [camp0], contacts := [], calls := [callBusy],
    call_events := [], next_call_id := 6 }

/-- Event claiming answered for an unknown gateway call identifier x. -/
def ev3 : WebhookEvent :=
  { type := none, type_description := some "answered", event := none,
    call_id := some "x", id := none, data := none }

/-- State after delivering ev3 once to the empty store. -/
def st3a : St :=
  match dizparos_webhook "" none ev3 0 stEmpty with
  | Except.ok p => p.1
  | Except.error _ => stEmpty

/-- State after delivering ev3 a second time, same clock instant. -/
def st3b : St :=
  match dizparos_webhook "" none ev3 0 st3a with
  | Except.ok p => p.1
  | Except.error _ => st3a

/-- Event whose normalized type is the unrecognized word unanswered. -/
def ev4 : WebhookEvent :=
  { type := none, type_description := some "UNANSWERED", event := none,
    call_id := none, id := none,
    data := some { call_id := some "x", duration := none, cost := none, recording_url := none } }

/-- A known call with gateway identifier x, linked to contact 3. -/
def call4 : Call :=
  { id := 7, campaign_id := some "X", contact_id := some 3,
    dizparos_call_id := some "x", status := "created",
    duration := none, cost := none, recording_url := none,
    created_at := some 0, finished_at := none }

/-- Store holding call4 and its contact. -/
def st4 : St :=
  { campaigns := [],
    contacts := [ { id := 3, campaign_id := "X", phone_e164 := "+5511999990003",
                    status := "calling", attempts := some 1, last_call_id := some 7 } ],
    calls := [call4], call_events := [], next_call_id := 8 }

/-- The finished event of the spec scenario: numeric code 2002 for call abc. -/
def ev2002 : WebhookEvent :=
  { type := some 2002, type_description := none, event := none,
    call_id := none, id := none,
    data := some { call_id := some "abc", duration := some "42",
                   cost := some "0.5", recording_url := none } }

/-- A known call with gateway identifier abc, linked to contact 3. -/
def callAbc : Call :=
  { id := 7, campaign_id := some "X", contact_id := some 3,
    dizparos_call_id := some "abc", status := "created",
    duration := none, cost := none, recording_url := none,
    created_at := some 0, finished_at := none }

/-- Store holding callAbc and its contact. -/
def stAbc : St :=
  { campaigns := [],
    contacts := [ { id := 3, campaign_id := "X", phone_e164 := "+5511999990003",
                    status := "calling", attempts := some 1, last_call_id := some 7 } ],
    calls := [callAbc], call_events := [], next_call_id := 8 }

/-
  Generic list and update-function lemmas.
-/

/-- find? commutes with a map whose function does not change the searched
predicate. -/
theorem find?_map_pres {α : Type} (p : α → Bool) (g : α → α)
    (h : ∀ a, p (g a) = p a) (l : List α) :
    (l.map g).find? p = (l.find? p).map g := by
  induction l with
  | nil => rfl
  | cons a t ih =>
      by_cases hp : p a
      · simp [List.find?_cons, h, hp]
      · simp [List.find?_cons, h, hp, ih]

/-- Mapping g2 after g1 collapses to g1 when g2 fixes every image of g1. -/
theorem map_map_self {α : Type} (g1 g2 : α → α)
    (h : ∀ a, g2 (g1 a) = g1 a) (l : List α) :
    (l.map g1).map g2 = l.map g1 := by
  induction l with
  | nil => rfl
  | cons a t ih => simp [h, ih]

/-
  Claim theorems.
-/

/-- Claim C1. The claim asserts that after every dispatch-loop invocation,
including two overlapping invocations for the same campaign, the number of
in-flight calls never exceeds the concurrency budget. The code reads the
in-flight count and the pending selection without any atomic slot
reservation, so two overlapping invocations that both perform their reads
against the same snapshot before either one writes jointly overshoot: with
concurrency 1 and an empty store, the schedule below leaves 2 in-flight
calls for campaign X. -/
theorem claim1_overdial :
    pyIntOr camp0.concurrency 5 = 1 ∧
    inFlight (tickCampaignSnap cfg0 gw0 0 s0
      (tickCampaignSnap cfg0 gw0 0 s0 s0 camp0).1 camp0).1 "X" = 2 := by
  decide

/-- Claim C2. The slot allocation of the dispatch loop equals
max(concurrency - in_flight, 0) where in_flight counts the calls of the
campaign whose status is created, answered or transferred; the allocation is
a pure function of the snapshot, and when it yields no free slot the store is
returned unchanged (no mutation at or before the allocation step). -/
theorem claim2_allocator (cfg : Config) (gw : String → Except String GatewayResp)
    (now : Nat) (snap s : St) (camp : Campaign) :
    inFlight snap camp.id =
      (snap.calls.filter (fun c => c.campaign_id == some camp.id &&
        (c.status == "created" || c.status == "answered" || c.status == "transferred"))).length ∧
    (tickCampaignSnap cfg gw now snap s camp).2.free_slots =
      (if free_slots_calc (pyIntOr camp.concurrency 5) (inFlight snap camp.id) ≤ 0
       then none
       else some (free_slots_calc (pyIntOr camp.concurrency 5) (inFlight snap camp.id)).toNat) ∧
    (free_slots_calc (pyIntOr camp.concurrency 5) (inFlight snap camp.id) ≤ 0 →
      (tickCampaignSnap cfg gw now snap s camp).1 = s) := by
  refine ⟨rfl, ?_, ?_⟩
  · simp only [tickCampaignSnap]
    split <;> simp_all
  · intro hfree
    simp only [tickCampaignSnap]
    rw [if_pos hfree]

/-- Witness for claim C2 at a concrete zero-slot store. -/
theorem claim2_witness :
    free_slots_calc (pyIntOr camp0.concurrency 5) (inFlight st9 camp0.id) ≤ 0 ∧
    (tickCampaignSnap cfg0 gw0 0 st9 st9 camp0).1 = st9 :=
  ⟨by decide, (claim2_allocator cfg0 gw0 0 st9 st9 camp0).2.2 (by decide)⟩

/-- Claim C5. For every selected contact the dispatch loop performs, in this
order: insert of a call row with status created (carrying the campaign, the
contact and the creation instant), then the contact update to status calling
with attempts incremented and last_call_id set to the new call id, and only
then the gateway invocation, which itself touches no table. The trace of the
per-contact loop body always begins with exactly these three operations, and
the store after the first two already contains both writes. -/
theorem claim5_order (cfg : Config) (gw : String → Except String GatewayResp)
    (now : Nat) (cid : String) (s : St) (c : Contact) :
    ∃ rest,
      (processContact cfg gw now cid s c).2.2 =
        startActs now cid s.next_call_id c ++ rest ∧
      (processContact cfg gw now cid s c).1 =
        applyActions (applyActions s (startActs now cid s.next_call_id c)) rest ∧
      (mkCallRow s.next_call_id cid c.id now).status = "created" ∧
      (applyActions s (startActs now cid s.next_call_id c)).calls =
        s.calls ++ [mkCallRow s.next_call_id cid c.id now] ∧
      (applyActions s (startActs now cid s.next_call_id c)).contacts =
        s.contacts.map (markCalling c.id (pyIntOr c.attempts 0 + 1) s.next_call_id) ∧
      (∀ (p : String) (s1 : St), applyAction s1 (Action.gatewayCall p) = s1) := by
  have hstart : ∀ s1 : St,
      applyActions s1 (startActs now cid s1.next_call_id c) =
        { s1 with calls := s1.calls ++ [mkCallRow s1.next_call_id cid c.id now],
                  next_call_id := s1.next_call_id + 1,
                  contacts := s1.contacts.map
                    (markCalling c.id (pyIntOr c.attempts 0 + 1) s1.next_call_id) } := by
    intro s1
    simp [startActs, applyActions, applyAction]
  cases hg : dizparos_start_call cfg gw c.phone_e164 with
  | ok r =>
      cases he : extract_call_id r with
      | some ext =>
          refine ⟨[Action.setExternalId s.next_call_id ext], ?_, ?_, rfl, ?_, ?_, fun p s1 => rfl⟩
          · simp [processContact, hg, he]
          · simp [processContact, hg, he, applyActions, List.foldl_append]
          · rw [hstart]
          · rw [hstart]
      | none =>
          refine ⟨failActs s.next_call_id c.id now (missingIdMsg r) c.phone_e164,
            ?_, ?_, rfl, ?_, ?_, fun p s1 => rfl⟩
          · simp [processContact, hg, he]
          · simp [processContact, hg, he, applyActions, List.foldl_append]
          · rw [hstart]
          · rw [hstart]
  | error e =>
      refine ⟨failActs s.next_call_id c.id now e c.phone_e164,
        ?_, ?_, rfl, ?_, ?_, fun p s1 => rfl⟩
      · simp [processContact, hg]
      · simp [processContact, hg, applyActions, List.foldl_append]
      · rw [hstart]
      · rw [hstart]

/-- Claim C6. On any dispatch failure (gateway or configuration error, or a
response with no usable call identifier) the loop body appends exactly the
failure operations: mark the call failed with finished_at stamped, mark the
contact failed, and insert exactly one start_failed call event whose payload
carries the error text and the dialed phone number; and the per-campaign loop
never aborts, producing one started-or-error outcome per selected contact. -/
theorem claim6_failure_path (cfg : Config) (gw : String → Except String GatewayResp)
    (now : Nat) (cid : String) (s : St) (c : Contact) :
    (∀ e, dizparos_start_call cfg gw c.phone_e164 = Except.error e →
        processContact cfg gw now cid s c =
          (applyActions s (startActs now cid s.next_call_id c ++
              failActs s.next_call_id c.id now e c.phone_e164), false,
           startActs now cid s.next_call_id c ++
              failActs s.next_call_id c.id now e c.phone_e164)) ∧
    (∀ r, dizparos_start_call cfg gw c.phone_e164 = Except.ok r →
        extract_call_id r = none →
        processContact cfg gw now cid s c =
          (applyActions s (startActs now cid s.next_call_id c ++
              failActs s.next_call_id c.id now (missingIdMsg r) c.phone_e164), false,
           startActs now cid s.next_call_id c ++
              failActs s.next_call_id c.id now (missingIdMsg r) c.phone_e164)) ∧
    (∀ (s0 : St) (e phone : String) (callId contactId t : Nat),
        (applyActions s0 (failActs callId contactId t e phone)).call_events =
          s0.call_events ++ [{ call_id := some callId, event_type := "start_failed",
                               payload := EventPayload.startFailed e phone }] ∧
        (applyActions s0 (failActs callId contactId t e phone)).calls =
          s0.calls.map (markCallFailed callId t) ∧
        (applyActions s0 (failActs callId contactId t e phone)).contacts =
          s0.contacts.map (markContactFailed contactId)) ∧
    (∀ (s0 : St) (cs : List Contact),
        (processContacts cfg gw now cid s0 cs).2.1 +
          (processContacts cfg gw now cid s0 cs).2.2 = cs.length) := by
  refine ⟨?_, ?_, ?_, ?_⟩
  · intro e he
    simp [processContact, he]
  · intro r hr hx
    simp [processContact, hr, hx]
  · intro s0 e phone callId contactId t
    refine ⟨?_, ?_, ?_⟩ <;> simp [failActs, applyActions, applyAction]
  · intro s0 cs
    induction cs generalizing s0 with
    | nil => rfl
    | cons a t ih =>
        have h2 := ih (processContact cfg gw now cid s0 a).1
        simp only [processContacts, List.length_cons]
        cases hb : (processContact cfg gw now cid s0 a).2.1 <;>
          simp [hb] <;> omega

/-- Witness for claim C6: a concrete failing gateway. -/
theorem claim6_witness :
    processContact cfg0 gwFail 0 "X" s0 contact1 =
      (applyActions s0 (startActs 0 "X" s0.next_call_id contact1 ++
          failActs s0.next_call_id contact1.id 0 "boom" contact1.phone_e164), false,
       startActs 0 "X" s0.next_call_id contact1 ++
          failActs s0.next_call_id contact1.id 0 "boom" contact1.phone_e164) :=
  (claim6_failure_path cfg0 gwFail 0 "X" s0 contact1).1 "boom" rfl

/-- Claim C10. A campaign whose concurrency field is missing, null or zero is
dispatched with the default budget 5: the campaign iteration behaves exactly
as if the field were 5, and the effective budget evaluates to 5. -/
theorem claim10_default_concurrency (cfg : Config)
    (gw : String → Except String GatewayResp) (now : Nat) (snap s : St)
    (camp : Campaign) (h : camp.concurrency = none ∨ camp.concurrency = some 0) :
    tickCampaignSnap cfg gw now snap s camp =
      tickCampaignSnap cfg gw now snap s { camp with concurrency := some 5 } ∧
    pyIntOr camp.concurrency 5 = 5 := by
  rcases h with h | h <;> simp [tickCampaignSnap, pyIntOr, h]

/-- Witness for claim C10 at a campaign with a null concurrency field. -/
theorem claim10_witness :
    tickCampaignSnap cfg0 gw0 0 s0 s0 { id := "Y", status := "running", concurrency := none } =
      tickCampaignSnap cfg0 gw0 0 s0 s0 { id := "Y", status := "running", concurrency := some 5 } ∧
    pyIntOr (none : Option Int) 5 = 5 :=
  claim10_default_concurrency cfg0 gw0 0 s0 s0
    { id := "Y", status := "running", concurrency := none } (Or.inl rfl)

/-- Claim C7. With a configured shared secret, a request whose
x-webhook-secret header is absent or whose stripped value differs from the
secret is rejected with HTTP 401 before any store access (the handler result
is the bare error, with no successor state); with no configured secret every
request passes verification and the handler returns success. -/
theorem claim7_webhook_auth (secret : String) (header : Option String)
    (ev : WebhookEvent) (now : Nat) (s : St) :
    (secret ≠ "" → strStrip (header.getD "") ≠ secret →
      dizparos_webhook secret header ev now s = Except.error 401) ∧
    (secret = "" →
      ∃ out, dizparos_webhook secret header ev now s = Except.ok out) := by
  constructor
  · intro h1 h2
    simp [dizparos_webhook, verify_webhook, h1, h2]
  · intro h
    subst h
    cases hx : extractWebhookCallId ev with
    | none =>
        exact ⟨(recordOrphanEvent ev s, orphanResp),
          by simp [dizparos_webhook, verify_webhook, hx]⟩
    | some ext =>
        cases hf : s.calls.find? (fun c => c.dizparos_call_id == some ext) with
        | none =>
            refine ⟨({ s with
                call_events := s.call_events ++ [mkWebhookEventRow none (descOf ev) ev],
                calls := s.calls ++ [mkPlaceholderCall s.next_call_id ext now],
                next_call_id := s.next_call_id + 1 },
              { ok := true,
                warning := some "call placeholder criado, aguarde o tick criar vínculo com contact",
                call_id := none, dizparos_call_id := none }), ?_⟩
            simp [dizparos_webhook, verify_webhook, hx, hf]
        | some c0 =>
            refine ⟨(applyTransition ev (descOf ev) c0.id c0.contact_id now
                { s with call_events := s.call_events ++
                    [mkWebhookEventRow (some c0.id) (descOf ev) ev] },
              { ok := true, warning := none,
                call_id := some c0.id, dizparos_call_id := some ext }), ?_⟩
            simp [dizparos_webhook, verify_webhook, hx, hf]

/-- Witness for claim C7: a wrong-secret rejection and a no-secret pass. -/
theorem claim7_witness :
    dizparos_webhook "s3cr3t" none ev3 0 stEmpty = Except.error 401 ∧
    (∃ out, dizparos_webhook "" none ev3 0 stEmpty = Except.ok out) :=
  ⟨(claim7_webhook_auth "s3cr3t" none ev3 0 stEmpty).1 (by decide) (by decide),
   (claim7_webhook_auth "" none ev3 0 stEmpty).2 rfl⟩

/-- Claim C8. An event whose extracted call identifier matches no stored call
makes the handler archive the event (with a null call reference), append
exactly one placeholder call with that identifier and status created, leave
every contact untouched (the contacts table of the result is the input one),
and return success with a warning. -/
theorem claim8_placeholder (ev : WebhookEvent) (now : Nat) (s : St) (ext : String)
    (hx : extractWebhookCallId ev = some ext)
    (hf : s.calls.find? (fun c => c.dizparos_call_id == some ext) = none) :
    dizparos_webhook "" none ev now s =
      Except.ok
        ({ s with call_events := s.call_events ++ [mkWebhookEventRow none (descOf ev) ev],
                  calls := s.calls ++ [mkPlaceholderCall s.next_call_id ext now],
                  next_call_id := s.next_call_id + 1 },
         { ok := true,
           warning := some "call placeholder criado, aguarde o tick criar vínculo com contact",
           call_id := none, dizparos_call_id := none }) ∧
    (mkPlaceholderCall s.next_call_id ext now).status = "created" ∧
    (mkPlaceholderCall s.next_call_id ext now).dizparos_call_id = some ext := by
  refine ⟨?_, rfl, rfl⟩
  simp [dizparos_webhook, verify_webhook, hx, hf]

/-- Witness for claim C8 on the empty store. -/
theorem claim8_witness :
    dizparos_webhook "" none ev3 0 stEmpty =
      Except.ok
        ({ stEmpty with
             call_events := stEmpty.call_events ++ [mkWebhookEventRow none (descOf ev3) ev3],
             calls := stEmpty.calls ++ [mkPlaceholderCall stEmpty.next_call_id "x" 0],
             next_call_id := stEmpty.next_call_id + 1 },
         { ok := true,
           warning := some "call placeholder criado, aguarde o tick criar vínculo com contact",
           call_id := none, dizparos_call_id := none }) ∧
    (mkPlaceholderCall stEmpty.next_call_id "x" 0).status = "created" ∧
    (mkPlaceholderCall stEmpty.next_call_id "x" 0).dizparos_call_id = some "x" :=
  claim8_placeholder ev3 0 stEmpty "x" (by decide) rfl

/-- The entry produced for a campaign always carries that campaign id. -/
theorem tickEntry_cid (cfg : Config) (gw : String → Except String GatewayResp)
    (now : Nat) (snap s : St) (camp : Campaign) :
    (tickCampaignSnap cfg gw now snap s camp).2.campaign_id = camp.id := by
  simp only [tickCampaignSnap]
  split <;> rfl

/-- The campaign loop produces one entry per campaign, in order. -/
theorem runCampaigns_cids (cfg : Config) (gw : String → Except String GatewayResp)
    (now : Nat) (l : List Campaign) :
    ∀ s : St, ((runCampaigns cfg gw now s l).2).map TickEntry.campaign_id =
      l.map Campaign.id := by
  induction l with
  | nil => intro s; rfl
  | cons a t ih =>
      intro s
      simp [runCampaigns, tickCampaign, tickEntry_cid, ih]

/-- Claim C9 (amended). Every tick response has top-level ok true; when no
running campaign matches, the response carries a message and no results list;
when at least one matches, the results list has exactly one entry per
matching campaign, in order; and the entry of a campaign without free slots
is started 0, errors 0, reason "sem slots" (the Portuguese literal the code
writes) with the store untouched by that iteration. -/
theorem claim9_response_shape (cfg : Config) (gw : String → Except String GatewayResp)
    (now : Nat) (body : Option String) (s : St) :
    (tick cfg gw now body s).2.ok = true ∧
    (matchingCampaigns s body = [] →
      (tick cfg gw now body s).2 =
        { ok := true, message := some "Nenhuma campanha running.", results := none }) ∧
    (matchingCampaigns s body ≠ [] →
      ∃ rs, (tick cfg gw now body s).2.results = some rs ∧
        rs.map TickEntry.campaign_id = (matchingCampaigns s body).map Campaign.id ∧
        rs.length = (matchingCampaigns s body).length) ∧
    (∀ (snap s1 : St) (camp : Campaign),
      free_slots_calc (pyIntOr camp.concurrency 5) (inFlight snap camp.id) ≤ 0 →
      (tickCampaignSnap cfg gw now snap s1 camp).2 =
        { campaign_id := camp.id, started := 0, errors := 0,
          reason := some "sem slots", free_slots := none }) := by
  refine ⟨?_, ?_, ?_, ?_⟩
  · cases hm : matchingCampaigns s body with
    | nil => simp [tick, hm]
    | cons a t => simp [tick, hm]
  · intro hm
    simp [tick, hm]
  · intro hm
    rcases hne : matchingCampaigns s body with _ | ⟨a, t⟩
    · exact absurd hne hm
    · refine ⟨(runCampaigns cfg gw now s (a :: t)).2, ?_, ?_, ?_⟩
      · simp [tick, hne]
      · exact runCampaigns_cids cfg gw now (a :: t) s
      · have h := runCampaigns_cids cfg gw now (a :: t) s
        have := congrArg List.length h
        simpa using this
  · intro snap s1 camp hfree
    simp only [tickCampaignSnap]
    rw [if_pos hfree]

/-- Counterexample for claim C9. The claim states the no-slot entry reads
reason "no slots" and that every tick response carries a results list. The
code writes the Portuguese literal "sem slots", and a tick matching no
running campaign answers with a message and no results list at all. -/
theorem claim9_counterexample :
    (tick cfg0 gw0 0 none st9).2.results =
      some [{ campaign_id := "X", started := 0, errors := 0,
              reason := some "sem slots", free_slots := none }] ∧
    some "sem slots" ≠ some "no slots" ∧
    (tick cfg0 gw0 0 none stEmpty).2.results = none := by
  decide

/-- Witness for claim C9 at concrete stores. -/
theorem claim9_witness :
    (tick cfg0 gw0 0 none stEmpty).2 =
      { ok := true, message := some "Nenhuma campanha running.", results := none } ∧
    (tickCampaignSnap cfg0 gw0 0 st9 st9 camp0).2 =
      { campaign_id := camp0.id, started := 0, errors := 0,
        reason := some "sem slots", free_slots := none } :=
  ⟨(claim9_response_shape cfg0 gw0 0 none stEmpty).2.1 rfl,
   (claim9_response_shape cfg0 gw0 0 none st9).2.2.2 st9 st9 camp0 (by decide)⟩

/-- setStatusAt keeps the gateway identifier of a row. -/
theorem setStatusAt_diz (k : Nat) (st : String) (c : Call) :
    (setStatusAt k st c).dizparos_call_id = c.dizparos_call_id := by
  simp only [setStatusAt]; split <;> rfl

/-- setStatusAt keeps the id of a row. -/
theorem setStatusAt_rowid (k : Nat) (st : String) (c : Call) :
    (setStatusAt k st c).id = c.id := by
  simp only [setStatusAt]; split <;> rfl

/-- setStatusAt keeps the contact reference of a row. -/
theorem setStatusAt_contact (k : Nat) (st : String) (c : Call) :
    (setStatusAt k st c).contact_id = c.contact_id := by
  simp only [setStatusAt]; split <;> rfl

/-- Applying setStatusAt twice equals applying it once. -/
theorem setStatusAt_idem (k : Nat) (st : String) (c : Call) :
    setStatusAt k st (setStatusAt k st c) = setStatusAt k st c := by
  by_cases h : c.id = k <;> simp [setStatusAt, h]

/-- setFinishedAt keeps the gateway identifier of a row. -/
theorem setFinishedAt_diz (k : Nat) (ev : WebhookEvent) (now : Nat) (c : Call) :
    (setFinishedAt k ev now c).dizparos_call_id = c.dizparos_call_id := by
  simp only [setFinishedAt]; split <;> rfl

/-- setFinishedAt keeps the id of a row. -/
theorem setFinishedAt_rowid (k : Nat) (ev : WebhookEvent) (now : Nat) (c : Call) :
    (setFinishedAt k ev now c).id = c.id := by
  simp only [setFinishedAt]; split <;> rfl

/-- setFinishedAt keeps the contact reference of a row. -/
theorem setFinishedAt_contact (k : Nat) (ev : WebhookEvent) (now : Nat) (c : Call) :
    (setFinishedAt k ev now c).contact_id = c.contact_id := by
  simp only [setFinishedAt]; split <;> rfl

/-- Applying setFinishedAt twice, same event and instant, equals once. -/
theorem setFinishedAt_idem (k : Nat) (ev : WebhookEvent) (now : Nat) (c : Call) :
    setFinishedAt k ev now (setFinishedAt k ev now c) = setFinishedAt k ev now c := by
  by_cases h : c.id = k <;> simp [setFinishedAt, h]

/-- Applying setContactDone twice equals applying it once. -/
theorem setContactDone_idem (k : Nat) (x : Contact) :
    setContactDone k (setContactDone k x) = setContactDone k x := by
  by_cases h : x.id = k <;> simp [setContactDone, h]

/-- Passing secret-less verification, the handler on an event whose extracted
identifier finds a call archives the event and runs the state machine. -/
theorem webhook_found_step (ev : WebhookEvent) (now : Nat) (s : St) (ext : String)
    (c0 : Call) (hx : extractWebhookCallId ev = some ext)
    (hf : s.calls.find? (fun c => c.dizparos_call_id == some ext) = some c0) :
    dizparos_webhook "" none ev now s =
      Except.ok
        (applyTransition ev (descOf ev) c0.id c0.contact_id now
          { s with call_events := s.call_events ++
              [mkWebhookEventRow (some c0.id) (descOf ev) ev] },
         { ok := true, warning := none,
           call_id := some c0.id, dizparos_call_id := some ext }) := by
  simp [dizparos_webhook, verify_webhook, hx, hf]

/-- Effect of the state machine in the answered branch. -/
theorem applyTransition_answered (ev : WebhookEvent) (desc : String) (k : Nat)
    (cI : Option Nat) (now : Nat) (s : St)
    (hc : classify ev.type desc = EvClass.answered) :
    (applyTransition ev desc k cI now s).calls = s.calls.map (setStatusAt k "answered") ∧
    (applyTransition ev desc k cI now s).contacts = s.contacts ∧
    (applyTransition ev desc k cI now s).call_events = s.call_events := by
  simp [applyTransition, hc]

/-- Effect of the state machine in the transferred branch. -/
theorem applyTransition_transferred (ev : WebhookEvent) (desc : String) (k : Nat)
    (cI : Option Nat) (now : Nat) (s : St)
    (hc : classify ev.type desc = EvClass.transferred) :
    (applyTransition ev desc k cI now s).calls = s.calls.map (setStatusAt k "transferred") ∧
    (applyTransition ev desc k cI now s).contacts = s.contacts ∧
    (applyTransition ev desc k cI now s).call_events = s.call_events := by
  simp [applyTransition, hc]

/-- Effect of the state machine in the finished branch. -/
theorem applyTransition_finished (ev : WebhookEvent) (desc : String) (k : Nat)
    (cI : Option Nat) (now : Nat) (s : St)
    (hc : classify ev.type desc = EvClass.finished) :
    (applyTransition ev desc k cI now s).calls = s.calls.map (setFinishedAt k ev now) ∧
    (applyTransition ev desc k cI now s).contacts =
      (match cI with
       | some cid => s.contacts.map (setContactDone cid)
       | none => s.contacts) ∧
    (applyTransition ev desc k cI now s).call_events = s.call_events := by
  cases cI <;> simp [applyTransition, hc]

/-- Effect of the state machine in the unknown branch: no change at all. -/
theorem applyTransition_unknown (ev : WebhookEvent) (desc : String) (k : Nat)
    (cI : Option Nat) (now : Nat) (s : St)
    (hc : classify ev.type desc = EvClass.unknown) :
    applyTransition ev desc k cI now s = s := by
  simp [applyTransition, hc]

/-- Full effect of one secret-less webhook delivery whose extracted
identifier finds call c0: success response naming c0, and the table effects
of the state machine by classification of the event. -/
theorem webhook_found_effects (ev : WebhookEvent) (now : Nat) (s : St) (ext : String)
    (c0 : Call) (hx : extractWebhookCallId ev = some ext)
    (hf : s.calls.find? (fun c => c.dizparos_call_id == some ext) = some c0) :
    ∃ s1 r1, dizparos_webhook "" none ev now s = Except.ok (s1, r1) ∧
      r1.call_id = some c0.id ∧
      (classify ev.type (descOf ev) = EvClass.answered →
        s1.calls = s.calls.map (setStatusAt c0.id "answered") ∧ s1.contacts = s.contacts) ∧
      (classify ev.type (descOf ev) = EvClass.transferred →
        s1.calls = s.calls.map (setStatusAt c0.id "transferred") ∧ s1.contacts = s.contacts) ∧
      (classify ev.type (descOf ev) = EvClass.finished →
        s1.calls = s.calls.map (setFinishedAt c0.id ev now) ∧
        s1.contacts = (match c0.contact_id with
          | some cid => s.contacts.map (setContactDone cid)
          | none => s.contacts)) ∧
      (classify ev.type (descOf ev) = EvClass.unknown →
        s1.calls = s.calls ∧ s1.contacts = s.contacts) := by
  refine ⟨applyTransition ev (descOf ev) c0.id c0.contact_id now
      { s with call_events := s.call_events ++
          [mkWebhookEventRow (some c0.id) (descOf ev) ev] },
    { ok := true, warning := none, call_id := some c0.id, dizparos_call_id := some ext },
    webhook_found_step ev now s ext c0 hx hf, rfl, ?_, ?_, ?_, ?_⟩
  · intro hc
    have h := applyTransition_answered ev (descOf ev) c0.id c0.contact_id now
      { s with call_events := s.call_events ++
          [mkWebhookEventRow (some c0.id) (descOf ev) ev] } hc
    exact ⟨h.1, h.2.1⟩
  · intro hc
    have h := applyTransition_transferred ev (descOf ev) c0.id c0.contact_id now
      { s with call_events := s.call_events ++
          [mkWebhookEventRow (some c0.id) (descOf ev) ev] } hc
    exact ⟨h.1, h.2.1⟩
  · intro hc
    have h := applyTransition_finished ev (descOf ev) c0.id c0.contact_id now
      { s with call_events := s.call_events ++
          [mkWebhookEventRow (some c0.id) (descOf ev) ev] } hc
    exact ⟨h.1, h.2.1⟩
  · intro hc
    rw [applyTransition_unknown ev (descOf ev) c0.id c0.contact_id now _ hc]
    exact ⟨rfl, rfl⟩

/-- Claim C4 (amended). The webhook state machine keys its transitions on the
numeric code (2000, 2001, 2002) or on case-insensitive SUBSTRING containment
of the keyword answered, transferred, finished or completed in the normalized
event type, tried in that order (not exact-string equality): answered sets
the found call to answered, transferred to transferred, finished to finished
while recording duration, cost, recording_url and finished_at and marking the
linked contact done when one is linked; an event matching no code and no
keyword changes no call and no contact. -/
theorem claim4_transitions (ev : WebhookEvent) (now : Nat) (s : St) (ext : String)
    (c0 : Call) (hx : extractWebhookCallId ev = some ext)
    (hf : s.calls.find? (fun c => c.dizparos_call_id == some ext) = some c0) :
    ∃ s1 r1, dizparos_webhook "" none ev now s = Except.ok (s1, r1) ∧
      r1.call_id = some c0.id ∧
      (classify ev.type (descOf ev) = EvClass.answered →
        s1.calls = s.calls.map (setStatusAt c0.id "answered") ∧ s1.contacts = s.contacts) ∧
      (classify ev.type (descOf ev) = EvClass.transferred →
        s1.calls = s.calls.map (setStatusAt c0.id "transferred") ∧ s1.contacts = s.contacts) ∧
      (classify ev.type (descOf ev) = EvClass.finished →
        s1.calls = s.calls.map (setFinishedAt c0.id ev now) ∧
        s1.contacts = (match c0.contact_id with
          | some cid => s.contacts.map (setContactDone cid)
          | none => s.contacts)) ∧
      (classify ev.type (descOf ev) = EvClass.unknown →
        s1.calls = s.calls ∧ s1.contacts = s.contacts) :=
  webhook_found_effects ev now s ext c0 hx hf

/-- Counterexample for claim C4. The claim says transitions are keyed by
case-insensitive EXACT-string match and that unrecognized event types cause
no status change. The event below normalizes to the word unanswered, which
equals none of the recognized keywords and carries no numeric code, yet the
code flips the found call from created to answered because it tests substring
containment, not equality. -/
theorem claim4_counterexample :
    descOf ev4 = "unanswered" ∧
    descOf ev4 ≠ "answered" ∧ descOf ev4 ≠ "transferred" ∧
    descOf ev4 ≠ "finished" ∧ descOf ev4 ≠ "completed" ∧
    ev4.type = none ∧
    (dizparos_webhook "" none ev4 0 st4).toOption.map
      (fun p => p.1.calls.map Call.status) = some ["answered"] := by
  decide

/-- Witness for claim C4: the spec scenario, numeric code 2002 for a known
call linked to a contact. -/
theorem claim4_witness :
    ∃ s1 r1, dizparos_webhook "" none ev2002 9 stAbc = Except.ok (s1, r1) ∧
      r1.call_id = some callAbc.id ∧
      (classify ev2002.type (descOf ev2002) = EvClass.answered →
        s1.calls = stAbc.calls.map (setStatusAt callAbc.id "answered") ∧
        s1.contacts = stAbc.contacts) ∧
      (classify ev2002.type (descOf ev2002) = EvClass.transferred →
        s1.calls = stAbc.calls.map (setStatusAt callAbc.id "transferred") ∧
        s1.contacts = stAbc.contacts) ∧
      (classify ev2002.type (descOf ev2002) = EvClass.finished →
        s1.calls = stAbc.calls.map (setFinishedAt callAbc.id ev2002 9) ∧
        s1.contacts = (match callAbc.contact_id with
          | some cid => stAbc.contacts.map (setContactDone cid)
          | none => stAbc.contacts)) ∧
      (classify ev2002.type (descOf ev2002) = EvClass.unknown →
        s1.calls = stAbc.calls ∧ s1.contacts = stAbc.contacts) :=
  claim4_transitions ev2002 9 stAbc "abc" callAbc (by decide) (by decide)

/-- Claim C3 (amended). For a webhook event whose extracted gateway call
identifier matches an existing Call, delivering the event twice at the same
clock instant leaves the calls and contacts tables identical to delivering it
once (the audit log of call_events grows, as it does on every delivery). The
unrestricted claim fails: for an unknown identifier the first delivery only
creates a placeholder without applying the transition while the second
transitions it, and a later redelivery of finished re-stamps finished_at with
the redelivery clock. -/
theorem claim3_idempotent_on_known_call (ev : WebhookEvent) (now : Nat) (s : St)
    (ext : String) (c0 : Call)
    (hx : extractWebhookCallId ev = some ext)
    (hf : s.calls.find? (fun c => c.dizparos_call_id == some ext) = some c0) :
    ∃ s1 r1 s2 r2,
      dizparos_webhook "" none ev now s = Except.ok (s1, r1) ∧
      dizparos_webhook "" none ev now s1 = Except.ok (s2, r2) ∧
      s2.calls = s1.calls ∧ s2.contacts = s1.contacts := by
  obtain ⟨A, R, h1, hRid, hAns, hTr, hFin, hUnk⟩ :=
    webhook_found_effects ev now s ext c0 hx hf
  cases hc : classify ev.type (descOf ev) with
  | answered =>
      obtain ⟨hAcalls, hAcont⟩ := hAns hc
      have hgp : ∀ a : Call,
          ((setStatusAt c0.id "answered" a).dizparos_call_id == some ext) =
            (a.dizparos_call_id == some ext) := fun a => by rw [setStatusAt_diz]
      have hfind2 : A.calls.find? (fun c => c.dizparos_call_id == some ext) =
          some (setStatusAt c0.id "answered" c0) := by
        rw [hAcalls, find?_map_pres _ _ hgp, hf]; rfl
      obtain ⟨B, R2, h2, hR2, hBans, hBtr, hBfin, hBunk⟩ :=
        webhook_found_effects ev now A ext (setStatusAt c0.id "answered" c0) hx hfind2
      obtain ⟨hBcalls, hBcont⟩ := hBans hc
      refine ⟨A, R, B, R2, h1, h2, ?_, hBcont⟩
      rw [hBcalls, setStatusAt_rowid, hAcalls]
      exact map_map_self _ _ (fun a => setStatusAt_idem c0.id "answered" a) s.calls
  | transferred =>
      obtain ⟨hAcalls, hAcont⟩ := hTr hc
      have hgp : ∀ a : Call,
          ((setStatusAt c0.id "transferred" a).dizparos_call_id == some ext) =
            (a.dizparos_call_id == some ext) := fun a => by rw [setStatusAt_diz]
      have hfind2 : A.calls.find? (fun c => c.dizparos_call_id == some ext) =
          some (setStatusAt c0.id "transferred" c0) := by
        rw [hAcalls, find?_map_pres _ _ hgp, hf]; rfl
      obtain ⟨B, R2, h2, hR2, hBans, hBtr, hBfin, hBunk⟩ :=
        webhook_found_effects ev now A ext (setStatusAt c0.id "transferred" c0) hx hfind2
      obtain ⟨hBcalls, hBcont⟩ := hBtr hc
      refine ⟨A, R, B, R2, h1, h2, ?_, hBcont⟩
      rw [hBcalls, setStatusAt_rowid, hAcalls]
      exact map_map_self _ _ (fun a => setStatusAt_idem c0.id "transferred" a) s.calls
  | finished =>
      obtain ⟨hAcalls, hAcont⟩ := hFin hc
      have hgp : ∀ a : Call,
          ((setFinishedAt c0.id ev now a).dizparos_call_id == some ext) =
            (a.dizparos_call_id == some ext) := fun a => by rw [setFinishedAt_diz]
      have hfind2 : A.calls.find? (fun c => c.dizparos_call_id == some ext) =
          some (setFinishedAt c0.id ev now c0) := by
        rw [hAcalls, find?_map_pres _ _ hgp, hf]; rfl
      obtain ⟨B, R2, h2, hR2, hBans, hBtr, hBfin, hBunk⟩ :=
        webhook_found_effects ev now A ext (setFinishedAt c0.id ev now c0) hx hfind2
      obtain ⟨hBcalls, hBcont⟩ := hBfin hc
      refine ⟨A, R, B, R2, h1, h2, ?_, ?_⟩
      · rw [hBcalls, setFinishedAt_rowid, hAcalls]
        exact map_map_self _ _ (fun a => setFinishedAt_idem c0.id ev now a) s.calls
      · rw [hBcont, setFinishedAt_contact]
        cases hcid : c0.contact_id with
        | none => rfl
        | some cid =>
            simp only [hcid] at hAcont
            rw [hAcont]
            exact map_map_self _ _ (fun a => setContactDone_idem cid a) s.contacts
  | unknown =>
      obtain ⟨hAcalls, hAcont⟩ := hUnk hc
      have hfind2 : A.calls.find? (fun c => c.dizparos_call_id == some ext) = some c0 := by
        rw [hAcalls]; exact hf
      obtain ⟨B, R2, h2, hR2, hBans, hBtr, hBfin, hBunk⟩ :=
        webhook_found_effects ev now A ext c0 hx hfind2
      obtain ⟨hBcalls, hBcont⟩ := hBunk hc
      exact ⟨A, R, B, R2, h1, h2, hBcalls, hBcont⟩

/-- Counterexample for claim C3. Delivering the same answered event for an
unknown call identifier twice, both at clock 0, is not idempotent on the
calls table: the first delivery creates a placeholder with status created and
applies no transition, the second finds the placeholder and flips it to
answered. -/
theorem claim3_counterexample :
    st3a.calls.map Call.status = ["created"] ∧
    st3b.calls.map Call.status = ["answered"] ∧
    st3b.calls ≠ st3a.calls := by
  decide

/-- Witness for claim C3: the finished event of the spec scenario, delivered
twice for a known call. -/
theorem claim3_witness :
    ∃ s1 r1 s2 r2,
      dizparos_webhook "" none ev2002 5 stAbc = Except.ok (s1, r1) ∧
      dizparos_webhook "" none ev2002 5 s1 = Except.ok (s2, r2) ∧
      s2.calls = s1.calls ∧ s2.contacts = s1.contacts :=
  claim3_idempotent_on_known_call ev2002 5 stAbc "abc" callAbc (by decide) (by decide)

end Dizparos
